import Mathlib

/-!
Verification development for the Stubber mock API server (Go, single-file
server in `main.go`).  The definitions below are a shallow embedding of the
request-routing / response-resolution engine and the embedded scripting
subsystem; each definition's doc comment names the Go function or code region
it translates.  Machine integers are modelled as `Int`/`Nat`, Go maps as
association lists with unique-key lookup, and the fallible script evaluation
as `Except`.
-/

/-- Model of the dynamically typed (`any`) JSON-like values that flow through
the server: configuration `response` values, goja `Export`ed script values,
and request bodies.  goja exports JS numbers as `int64`/`float64`; both are
converted with Go's `int(...)` where the code consumes them, so numbers are
modelled as `Int` (non-integral floats are outside the scope of every claim).
JS `undefined` and `null`, and Go `nil`, are all modelled by `vnull`. -/
inductive GoValue where
  | vnull
  | vbool (b : Bool)
  | vnum (n : Int)
  | vstr (s : String)
  | varr (elems : List GoValue)
  | vobj (fields : List (String × GoValue))


/-- Lookup in a Go `map[string]any` modelled as an association list (Go map
keys are unique, so first-match lookup is the map access). -/
def mapLookup (m : List (String × GoValue)) (k : String) : Option GoValue :=
  (m.find? (fun p => p.1 == k)).map (fun p => p.2)

/-- Model of the Go struct `ScriptResult` (body, statusCode, headers).  A
`nil` Go headers map and an empty one are observationally identical (both
range over nothing in the handler), so `headers` is a plain list. -/
structure ScriptResult where
  body : GoValue
  statusCode : Int
  headers : List (String × String)


/-- Model of the header filtering inside `JSRuntime.Execute`: from a script
`headers` object, entries whose value is a string are kept and every other
entry is dropped (not coerced). -/
def headerStrings (h : List (String × GoValue)) : List (String × String) :=
  h.filterMap (fun p =>
    match p.2 with
    | .vstr s => some (p.1, s)
    | _ => none)

/-- Model of the result-interpretation part of `JSRuntime.Execute`
(part_003 lines 114-151): starting from `ScriptResult{StatusCode: 200}`,
a `null`/`undefined` value gives an empty body; an exported object with a
`body` key gives a structured result whose `statusCode` is taken only from a
numeric `statusCode` entry and whose `headers` keep only string-valued
entries of a `headers` object; any other value becomes the body verbatim. -/
def interpretResult (val : GoValue) : ScriptResult :=
  match val with
  | .vnull => ⟨.vnull, 200, []⟩
  | .vobj m =>
    (match mapLookup m "body" with
     | some bodyv =>
        { body := bodyv
          statusCode :=
            (match mapLookup m "statusCode" with
             | some (.vnum n) => n
             | _ => 200)
          headers :=
            (match mapLookup m "headers" with
             | some (.vobj h) => headerStrings h
             | _ => []) }
     | none => ⟨.vobj m, 200, []⟩)
  | v => ⟨v, 200, []⟩

/-- Model of the Go struct `Endpoint` (part_003 lines 17-28).  `context`
values are JSON-derived, hence `GoValue`. -/
structure Endpoint where
  path : String
  method : String
  statusCode : Int
  response : GoValue
  headers : List (String × String)
  summary : String
  description : String
  tags : List String
  script : String
  context : List (String × GoValue)


/-- The method test of the per-path handler loop (part_003 line 371):
an entry matches when its configured method is empty or equals the inbound
method exactly (case-sensitive). -/
def epMatches (e : Endpoint) (m : String) : Bool :=
  e.method == "" || e.method == m

/-- Model of the Method Resolver (part_003 lines 369-375): scan the
endpoints registered for one path in registration order and take the first
whose method is empty or equals the inbound method. -/
def findEndpoint (eps : List Endpoint) (m : String) : Option Endpoint :=
  eps.find? (fun e => epMatches e m)

/-- Response bodies written by the handler: JSON-encoded values, or the
plain-text bodies of `http.Error` and the health handler. -/
inductive RespBody where
  | json (v : GoValue)
  | text (s : String)


/-- Status code and body of an HTTP response.  Response headers are not
modelled: no claim in this development concerns the handler's header
writing (the script-level header filtering is `headerStrings` above). -/
structure HttpResponse where
  status : Int
  body : RespBody


/-- Model of the per-path request handler (part_003 lines 367-467), with the
outcome of `vm.RunString` supplied as the `runOutcome` parameter (error
message, or exported final value).  Mirrors, in order: method resolution
(405 via `http.Error` on no match), the scripted branch (500 with a JSON
error object on script failure, otherwise `interpretResult` and the
three-stage status fallback `result.StatusCode` / `endpoint.StatusCode` /
`200`), and the static branch (configured status with the `0 ↦ 200`
sentinel, configured response as body). -/
def handleRequest (eps : List Endpoint) (method : String)
    (runOutcome : Except String GoValue) : HttpResponse :=
  match findEndpoint eps method with
  | none => ⟨405, .text "Method not allowed\n"⟩
  | some ep =>
    if ep.script ≠ "" then
      match runOutcome with
      | .error msg =>
          ⟨500, .json (.vobj [("error", .vstr "Script execution failed"),
                              ("details", .vstr msg)])⟩
      | .ok v =>
          let result := interpretResult v
          let sc1 := result.statusCode
          let sc2 := if sc1 = 0 then ep.statusCode else sc1
          let sc3 := if sc2 = 0 then 200 else sc2
          ⟨sc3, .json result.body⟩
    else
      ⟨if ep.statusCode = 0 then 200 else ep.statusCode, .json ep.response⟩

/-- The opening brace character, written via its code point. -/
def lbrace : Char := Char.ofNat 123

/-- The closing brace character, written via its code point. -/
def rbrace : Char := Char.ofNat 125

/-- Splitting a character list on a separator character; `splitOnChar sep`
agrees with Go's `strings.Split` for a one-character separator (an empty
input yields one empty field; a leading separator yields a leading empty
field, and so on). -/
def splitOnChar (sep : Char) : List Char → List (List Char)
  | [] => [[]]
  | c :: rest =>
    let r := splitOnChar sep rest
    if c = sep then [] :: r
    else
      match r with
      | [] => [[c]]
      | g :: gs => (c :: g) :: gs

/-- Model of Go's `strings.Split(s, sep)` for the one-character separators
used by `extractPathValues` (route segments are ASCII, so byte indexing and
character indexing agree). -/
def goStringSplit (s : String) (sep : Char) : List String :=
  (splitOnChar sep s.data).map (fun cs => String.mk cs)

/-- The placeholder test of `extractPathValues` (part_003 line 498):
`strings.HasPrefix(part, lbrace)` and `strings.HasSuffix(part, rbrace)`. -/
def isPlaceholderSeg (seg : String) : Bool :=
  (match seg.data with
   | c :: _ => c = lbrace
   | [] => false) &&
  (match seg.data.getLast? with
   | some c => c = rbrace
   | none => false)

/-- The placeholder-name slice of `extractPathValues` (part_003 line 499):
`part[1 : len(part)-1]`, the segment with its first and last characters
removed. -/
def placeholderName (seg : String) : String :=
  String.mk ((seg.data.drop 1).dropLast)

/-- Insertion into a Go `map[string]string` modelled as an association list:
an existing key is overwritten in place, a new key is appended. -/
def goMapInsert (m : List (String × String)) (k v : String) :
    List (String × String) :=
  if m.any (fun p => p.1 == k) then
    m.map (fun p => if p.1 == k then (k, v) else p)
  else m ++ [(k, v)]

/-- The binding loop of `extractPathValues` (part_003 lines 497-502):
walk the zipped template/concrete segments, binding each placeholder
segment's name to the concrete segment; non-placeholder segments are
skipped (no comparison is performed on them). -/
def bindLoop : List (String × String) → List (String × String) →
    List (String × String)
  | acc, [] => acc
  | acc, (pp, cp) :: rest =>
      bindLoop
        (if isPlaceholderSeg pp then goMapInsert acc (placeholderName pp) cp
         else acc) rest

/-- Model of `extractPathValues` (part_003 lines 487-505): split template
and concrete path on `/`; on differing segment counts return the empty map;
otherwise bind every `{name}` template segment to the concrete segment in
the same position. -/
def extractPathValues (pattern path : String) : List (String × String) :=
  let patternParts := goStringSplit pattern '/'
  let pathParts := goStringSplit path '/'
  if patternParts.length ≠ pathParts.length then []
  else bindLoop [] (patternParts.zip pathParts)

/-- Follows the specification's words for the Path Matcher (spec section
4.1), stated for comparison with the source function `extractPathValues`:
segment counts must be equal, a `{name}` template segment binds `name` to
the concrete segment, every other template segment must equal the concrete
segment exactly, and a failed match yields no bindings at all. -/
def specMatchSegs : List (String × String) → Option (List (String × String))
  | [] => some []
  | (t, c) :: rest =>
      match specMatchSegs rest with
      | none => none
      | some binds =>
          if isPlaceholderSeg t then some ((placeholderName t, c) :: binds)
          else if t = c then some binds
          else none

/-- Follows the specification's words for the Path Matcher (spec section
4.1), top level: `none` is a failed match, `some bindings` a successful
one.  Compared against the source's `extractPathValues` in the theorems
below. -/
def specPathMatch (pattern path : String) : Option (List (String × String)) :=
  let pp := goStringSplit pattern '/'
  let cp := goStringSplit path '/'
  if pp.length ≠ cp.length then none
  else specMatchSegs (pp.zip cp)

/-- Model of `statusCodeToString` (part_003 lines 306-327): the switch maps
the eight listed codes to their decimal strings and every other code to
"200". -/
def statusCodeToString (code : Int) : String :=
  if code = 200 then "200"
  else if code = 201 then "201"
  else if code = 204 then "204"
  else if code = 400 then "400"
  else if code = 401 then "401"
  else if code = 403 then "403"
  else if code = 404 then "404"
  else if code = 500 then "500"
  else "200"

/-- The status-code resolution shared by `generateOpenAPISpec` (part_003
lines 230-233) and the static branch of the handler: the configured code
with the `0 ↦ 200` sentinel applied. -/
def resolvedStatus (ep : Endpoint) : Int :=
  if ep.statusCode = 0 then 200 else ep.statusCode

/-- The response key `generateOpenAPISpec` places an endpoint's example
under (part_003 line 237): `statusCodeToString` of the resolved status. -/
def openAPIResponseKey (ep : Endpoint) : String :=
  statusCodeToString (resolvedStatus ep)

/-- The constant `hex = "0123456789abcdef"` of `hexChar` (part_003 line
188), as a character list. -/
def hexDigitChars : List Char :=
  "0123456789abcdef".data

/-- Model of `hexChar` (part_003 lines 187-190): the lowercase hex digit of
the low nibble (`b & 0x0f`, i.e. `b % 16`). -/
def hexChar (b : Nat) : Char :=
  hexDigitChars.getD (b % 16) '0'

/-- One byte rendered as two hex digits, as the `%x` branch of `sprintf`
does per byte (part_003 line 174): `hexChar(v >> 4)` then
`hexChar(v & 0x0f)`; for a byte value, `v >> 4` is `v / 16` and the low
nibble is taken inside `hexChar`. -/
def hexByteChars (v : Nat) : List Char :=
  [hexChar (v / 16), hexChar (v % 16)]

/-- A byte slice rendered in hex, as the `%x` branch of `sprintf` renders a
`[]byte` argument (part_003 lines 172-176). -/
def hexBytes : List Nat → List Char
  | [] => []
  | b :: rest => hexByteChars b ++ hexBytes rest

/-- Model of `sprintf` (part_003 lines 165-185), specialised to the byte
slice arguments it is used with: walk the format; `%x` consumes the next
argument (if any) and renders it in hex; every other character is copied. -/
def sprintfGo : List Char → List (List Nat) → List Char
  | [], _ => []
  | '%' :: 'x' :: rest, a :: args => hexBytes a ++ sprintfGo rest args
  | '%' :: 'x' :: rest, [] => sprintfGo rest []
  | c :: rest, args => c :: sprintfGo rest args

/-- The format string `"%x-%x-%x-%x-%x"` of `generateUUID` (part_003 line
162), as a character list. -/
def uuidFormat : List Char :=
  ['%', 'x', '-', '%', 'x', '-', '%', 'x', '-', '%', 'x', '-', '%', 'x']

/-- Model of the byte array `b` of `generateUUID` (part_003 lines 156-161).
`time.Now().UnixNano()` is read once per byte inside the loop, so the clock
readings are a function of the index; `UnixNano` is non-negative for any
realistic clock, so the readings are `Nat`.  `byte(x >> (i*8))` is
`(x >>> (i*8)) % 256`; the version fix `(b & 0x0f) | 0x40` equals
`b % 16 + 64` and the variant fix `(b & 0x3f) | 0x80` equals
`b % 64 + 128`, the or-ed constants having no bits in the masked range. -/
def uuidBytes (nanos : Fin 16 → Nat) (i : Fin 16) : Nat :=
  let b := (nanos i >>> (i.val * 8)) % 256
  if i.val = 6 then b % 16 + 64
  else if i.val = 8 then b % 64 + 128
  else b

/-- Model of `generateUUID` (part_003 lines 154-163): the sixteen adjusted
clock-derived bytes rendered through `sprintf` with the UUID format and the
slices `b[0:4], b[4:6], b[6:8], b[8:10], b[10:16]`. -/
def generateUUID (nanos : Fin 16 → Nat) : String :=
  let b := uuidBytes nanos
  String.mk (sprintfGo uuidFormat
    [[b 0, b 1, b 2, b 3], [b 4, b 5], [b 6, b 7], [b 8, b 9],
     [b 10, b 11, b 12, b 13, b 14, b 15]])

/-- Values bound in a goja VM's global environment: exported JSON-like
values, or host bindings installed by `vm.Set` (the `console` object and
the `uuid`/`now`/`timestamp` functions, and the request snapshot bound as
`req`/`request`).  Host bindings are opaque here: no claim evaluates
them. -/
inductive JSVal where
  | val (v : GoValue)
  | hostFn (tag : String)

/-- One binding step `vm.Set(k, v)`: overwrite an existing global of that
name, else add it. -/
def setJSVar (g : List (String × JSVal)) (k : String) (v : JSVal) :
    List (String × JSVal) :=
  if g.any (fun p => p.1 == k) then
    g.map (fun p => if p.1 == k then (k, v) else p)
  else g ++ [(k, v)]

/-- Lookup of a global binding in the VM environment. -/
def jsLookup (g : List (String × JSVal)) (k : String) : Option JSVal :=
  (g.find? (fun p => p.1 == k)).map (fun p => p.2)

/-- Model of a goja VM (`goja.Runtime`): its persistent global environment
and its interrupt flag.  A goja runtime keeps every global created by a
script across `RunString` calls; `ClearInterrupt` clears only the interrupt
flag. -/
structure VM where
  globals : List (String × JSVal)
  interrupted : Bool

/-- Model of `goja.New()`: a fresh VM with no globals and no pending
interrupt. -/
def gojaNew : VM := ⟨[], false⟩

/-- Model of the `sync.Pool` of VMs in `JSRuntime` as a free list (the pool
hands out a previously released VM when one is available, else builds a
fresh one with its `New` function). -/
structure JSRuntimePool where
  freeList : List VM

/-- A pool with no released VMs, as at process start. -/
def emptyPool : JSRuntimePool := ⟨[]⟩

/-- Model of `jr.pool.Get()`: take a released VM if one exists, else
`goja.New()`. -/
def poolGet : JSRuntimePool → VM × JSRuntimePool
  | ⟨[]⟩ => (gojaNew, ⟨[]⟩)
  | ⟨vm :: rest⟩ => (vm, ⟨rest⟩)

/-- Model of `jr.pool.Put(vm)`. -/
def poolPut (p : JSRuntimePool) (vm : VM) : JSRuntimePool :=
  ⟨vm :: p.freeList⟩

/-- Model of `vm.ClearInterrupt()`: only the interrupt flag is cleared; the
global environment is untouched. -/
def clearInterrupt (vm : VM) : VM :=
  { vm with interrupted := false }

/-- The `vm.Set` calls of `JSRuntime.Execute` (part_003 lines 81-106):
bind the built-in host functions, the request snapshot under `req` and
`request`, and every configured context key as a top-level variable. -/
def setupVM (vm : VM) (reqv : JSVal) (ctx : List (String × GoValue)) : VM :=
  let g1 := setJSVar vm.globals "console" (.hostFn "console")
  let g2 := setJSVar g1 "uuid" (.hostFn "uuid")
  let g3 := setJSVar g2 "now" (.hostFn "now")
  let g4 := setJSVar g3 "timestamp" (.hostFn "timestamp")
  let g5 := setJSVar g4 "req" reqv
  let g6 := setJSVar g5 "request" reqv
  { vm with globals := ctx.foldl (fun g kv => setJSVar g kv.1 (.val kv.2)) g6 }

/-- A statement of the scripts exercised against the VM model: a non-strict
global assignment, a variable read (the read value becomes the statement's
value; an undeclared name raises a ReferenceError), or a `throw`.  The
program's value is its last statement's value, `undefined` (`vnull`) for an
empty program — the shape `vm.RunString` exposes. -/
inductive JSStmt where
  | assign (name : String) (v : GoValue)
  | readVar (name : String)
  | throwJS (msg : String)

/-- Evaluation of a statement list against the global environment, mirroring
`vm.RunString`: assignments create or overwrite globals and persist in the
environment; reads of undeclared names and `throw` end the run with an
error, keeping the mutations made so far.  Reading a host binding yields an
opaque value, modelled as `vnull`; no claim evaluates it. -/
def runScriptAux : List (String × JSVal) → GoValue → List JSStmt →
    List (String × JSVal) × Except String GoValue
  | g, lastVal, [] => (g, .ok lastVal)
  | g, _, .assign n v :: rest => runScriptAux (setJSVar g n (.val v)) v rest
  | g, _, .readVar n :: rest =>
      (match jsLookup g n with
       | some (.val v) => runScriptAux g v rest
       | some (.hostFn _) => runScriptAux g .vnull rest
       | none => (g, .error (n ++ " is not defined")))
  | g, _, .throwJS msg :: _ => (g, .error msg)

/-- Model of `JSRuntime.Execute` (part_003 lines 73-152) at the pool level:
get a VM from the pool, install the per-request bindings, run the script,
and — as the deferred block does — call only `ClearInterrupt` before
putting the VM back; on success the exported value goes through the result
interpretation (`interpretResult`). -/
def executePooled (p : JSRuntimePool) (script : List JSStmt) (reqv : JSVal)
    (ctx : List (String × GoValue)) :
    Except String ScriptResult × JSRuntimePool :=
  let got := poolGet p
  let vm1 := setupVM got.1 reqv ctx
  let run := runScriptAux vm1.globals .vnull script
  let released := clearInterrupt { vm1 with globals := run.1 }
  let p2 := poolPut got.2 released
  match run.2 with
  | .error e => (.error e, p2)
  | .ok v => (.ok (interpretResult v), p2)

/-- Concrete endpoints used as inputs by the witnesses below: a wildcard
entry and an exact-GET entry on one path, a static endpoint with the unset
status sentinel and a null response, a scripted endpoint with a configured
status, and endpoints configured with statuses outside the OpenAPI
switch. -/
def wildEp : Endpoint := ⟨"/w", "", 204, .vnull, [], "", "", [], "", []⟩

/-- Exact-GET companion of `wildEp` on the same path. -/
def getWEp : Endpoint := ⟨"/w", "GET", 200, .vnull, [], "", "", [], "", []⟩

/-- Static endpoint with the unset-status sentinel and a null response. -/
def staticNullEp : Endpoint := ⟨"/s", "GET", 0, .vnull, [], "", "", [], "", []⟩

/-- Scripted endpoint with configured status 201. -/
def scriptedEp : Endpoint := ⟨"/sc", "GET", 201, .vnull, [], "", "", [], "res", []⟩

/-- Endpoint configured with status 418. -/
def teapotEp : Endpoint := ⟨"/tea", "GET", 418, .vnull, [], "", "", [], "", []⟩

/-- Endpoint configured with status 301. -/
def redirectEp : Endpoint := ⟨"/r", "GET", 301, .vnull, [], "", "", [], "", []⟩

/-- C1: the Method Resolver takes the first entry in registration order
whose method is empty or equals the inbound method exactly; a wildcard
entry registered first is selected no matter what follows it; and when no
entry matches, the handler answers 405 with the `http.Error` text and no
endpoint body. -/
theorem method_resolver_first_match (eps : List Endpoint) (mtd : String) :
    (∀ ep, findEndpoint eps mtd = some ep →
        ∃ pre post, eps = pre ++ ep :: post ∧ epMatches ep mtd = true ∧
          ∀ e ∈ pre, epMatches e mtd = false) ∧
    (findEndpoint eps mtd = none ↔ ∀ e ∈ eps, epMatches e mtd = false) ∧
    (∀ w rest, w.method = "" → findEndpoint (w :: rest) mtd = some w) ∧
    (findEndpoint eps mtd = none →
        ∀ ro, handleRequest eps mtd ro = ⟨405, .text "Method not allowed\n"⟩) := by
  refine ⟨?_, ?_, ?_, ?_⟩
  · intro ep h
    obtain ⟨hp, pre, post, rfl, hpre⟩ := List.find?_eq_some.mp h
    exact ⟨pre, post, rfl, hp, fun e he => by simpa using hpre e he⟩
  · rw [findEndpoint, List.find?_eq_none]
    simp
  · intro w rest hw
    simp [findEndpoint, List.find?_cons_of_pos, epMatches, hw]
  · intro h ro
    simp [handleRequest, h]

/-- Witness for C1: with a wildcard entry registered before an exact-GET
entry for the same path, a GET request selects the wildcard entry. -/
theorem method_resolver_first_match_witness :
    findEndpoint [wildEp, getWEp] "GET" = some wildEp :=
  (method_resolver_first_match [wildEp, getWEp] "GET").2.2.1 wildEp [getWEp] rfl

/-- C7: when the Method Resolver selects a static (non-scripted) endpoint
for a request with its configured method, the response carries the
configured status code with the `0 ↦ 200` sentinel applied and a JSON body
equal to the configured response value, whatever it is. -/
theorem static_endpoint_response (eps : List Endpoint) (ep : Endpoint)
    (hfind : findEndpoint eps ep.method = some ep) (hstatic : ep.script = "") :
    ∀ ro : Except String GoValue,
      handleRequest eps ep.method ro =
        ⟨if ep.statusCode = 0 then 200 else ep.statusCode, .json ep.response⟩ := by
  intro ro
  simp [handleRequest, hfind, hstatic]

/-- Witness for C7: a static endpoint with the unset sentinel and a null
response answers 200 with JSON `null`. -/
theorem static_endpoint_response_witness :
    handleRequest [staticNullEp] "GET" (.ok .vnull) = ⟨200, .json .vnull⟩ :=
  static_endpoint_response [staticNullEp] staticNullEp rfl rfl (.ok .vnull)

/-- C10: every endpoint whose resolved status code lies outside the eight
codes of the `statusCodeToString` switch is placed under the response key
"200" in the generated OpenAPI document, so the key does not reflect the
actual configured status. -/
theorem openapi_status_collapse (ep : Endpoint)
    (h : resolvedStatus ep ∉ ([200, 201, 204, 400, 401, 403, 404, 500] : List Int)) :
    openAPIResponseKey ep = "200" ∧ resolvedStatus ep ≠ 200 := by
  simp only [List.mem_cons, List.mem_singleton, not_or] at h
  obtain ⟨h1, h2, h3, h4, h5, h6, h7, h8⟩ := h
  exact ⟨by simp [openAPIResponseKey, statusCodeToString, h1, h2, h3, h4, h5, h6, h7, h8], h1⟩

/-- Witness for C10: configured statuses 418 and 301 are both reported
under "200". -/
theorem openapi_status_collapse_witness :
    (openAPIResponseKey teapotEp = "200" ∧ resolvedStatus teapotEp ≠ 200) ∧
    (openAPIResponseKey redirectEp = "200" ∧ resolvedStatus redirectEp ≠ 200) :=
  ⟨openapi_status_collapse teapotEp (by decide),
   openapi_status_collapse redirectEp (by decide)⟩

/-- Helper: the header filtering keeps exactly the string-valued entries of
the script's headers object. -/
theorem headerStrings_mem (h : List (String × GoValue)) (k s : String) :
    (k, s) ∈ headerStrings h ↔ (k, GoValue.vstr s) ∈ h := by
  constructor
  · intro hm
    obtain ⟨⟨k', v'⟩, hmem, heq⟩ := List.mem_filterMap.mp hm
    cases v' <;> simp_all
  · intro hm
    exact List.mem_filterMap.mpr ⟨(k, .vstr s), hm, rfl⟩

/-- C5: for a script value that is a mapping with a `body` key, the Script
Result's body is that mapping's `body` value; a numeric `statusCode` entry
overrides the default status; and a `headers` mapping contributes exactly
its string-valued entries (non-string values are dropped, not coerced). -/
theorem script_result_interpretation (m : List (String × GoValue))
    (bodyv : GoValue) (hb : mapLookup m "body" = some bodyv) :
    (interpretResult (.vobj m)).body = bodyv ∧
    (∀ n : Int, mapLookup m "statusCode" = some (.vnum n) →
        (interpretResult (.vobj m)).statusCode = n) ∧
    (∀ h : List (String × GoValue), mapLookup m "headers" = some (.vobj h) →
        ∀ k s, ((k, s) ∈ (interpretResult (.vobj m)).headers ↔
          (k, GoValue.vstr s) ∈ h)) := by
  refine ⟨?_, ?_, ?_⟩
  · simp [interpretResult, hb]
  · intro n hn
    simp [interpretResult, hb, hn]
  · intro h hh k s
    simp only [interpretResult, hb, hh]
    exact headerStrings_mem h k s

/-- The structured script value used by the C5 witness: a body, a numeric
status, one string header and one non-string header. -/
def structuredVal : List (String × GoValue) :=
  [("body", .vstr "x"), ("statusCode", .vnum 201),
   ("headers", .vobj [("X-Test", .vstr "v"), ("Bad", .vnum 1)])]

/-- Witness for C5: the structured value yields body `"x"`, status 201, and
keeps the string-valued header. -/
theorem script_result_interpretation_witness :
    (interpretResult (.vobj structuredVal)).body = .vstr "x" ∧
    (interpretResult (.vobj structuredVal)).statusCode = 201 ∧
    ("X-Test", "v") ∈ (interpretResult (.vobj structuredVal)).headers := by
  obtain ⟨h1, h2, h3⟩ := script_result_interpretation structuredVal (.vstr "x") rfl
  refine ⟨h1, h2 201 rfl, ?_⟩
  exact (h3 [("X-Test", .vstr "v"), ("Bad", .vnum 1)] rfl "X-Test" "v").mpr (by simp)

/-- Counterexample for C3 as stated: `scriptedEp` is scripted with
configured status 201, its script supplies a body but no `statusCode`, yet
the response status is 200, not the configured 201 — `Execute` initialises
the Script Result with status 200, so the configured code is never
consulted. -/
theorem scripted_status_counterexample :
    scriptedEp.script ≠ "" ∧ scriptedEp.statusCode = 201 ∧
    (handleRequest [scriptedEp] "GET"
        (.ok (.vobj [("body", .vstr "x")]))).status = 200 := by
  exact ⟨by decide, rfl, rfl⟩

/-- C3 as amended: the Script Result's status (which `Execute` defaults to
200 when the script supplies no numeric `statusCode`) wins whenever it is
non-zero; the endpoint's configured status is consulted only when the
script explicitly supplies `statusCode` 0, and then the `0 ↦ 200` sentinel
applies to the configured value. -/
theorem scripted_status_precedence (eps : List Endpoint) (mtd : String)
    (ep : Endpoint) (m : List (String × GoValue)) (bodyv : GoValue)
    (hfind : findEndpoint eps mtd = some ep) (hscripted : ¬ ep.script = "")
    (hb : mapLookup m "body" = some bodyv) :
    (mapLookup m "statusCode" = none →
        (handleRequest eps mtd (.ok (.vobj m))).status = 200) ∧
    (∀ n : Int, n ≠ 0 → mapLookup m "statusCode" = some (.vnum n) →
        (handleRequest eps mtd (.ok (.vobj m))).status = n) ∧
    (mapLookup m "statusCode" = some (.vnum 0) →
        (handleRequest eps mtd (.ok (.vobj m))).status = resolvedStatus ep) := by
  refine ⟨?_, ?_, ?_⟩
  · intro hsc
    simp [handleRequest, hfind, hscripted, interpretResult, hb, hsc]
  · intro n hn hsc
    simp [handleRequest, hfind, hscripted, interpretResult, hb, hsc, hn]
  · intro hsc
    simp [handleRequest, hfind, hscripted, interpretResult, hb, hsc, resolvedStatus]

/-- Witness for C3 as amended: the scripted endpoint with configured status
201 and a script value supplying only a body answers 200. -/
theorem scripted_status_precedence_witness :
    (handleRequest [scriptedEp] "GET"
        (.ok (.vobj [("body", .vstr "x")]))).status = 200 :=
  (scripted_status_precedence [scriptedEp] "GET" scriptedEp
      [("body", .vstr "x")] (.vstr "x") rfl (by decide) rfl).1 rfl

/-- The failing script of the C6 counterexample: create a global, then
throw. -/
def failingScript : List JSStmt := [.assign "leakedflag" (.vnum 1), .throwJS "boom"]

/-- A later script that reads the global the failing script created. -/
def probeScript : List JSStmt := [.readVar "leakedflag"]

/-- Counterexample for C6 as stated (the isolation clause): the failing
script's evaluation errors, but the global it created before throwing stays
in the pooled context, so a future evaluation that reuses the context sees
it (value 1) while the same evaluation on a fresh context raises a
ReferenceError — a future request's outcome is affected by the failure. -/
theorem script_failure_isolation_counterexample :
    (executePooled emptyPool failingScript (.hostFn "req") []).1 = .error "boom" ∧
    (executePooled (executePooled emptyPool failingScript (.hostFn "req") []).2
        probeScript (.hostFn "req") []).1 = .ok ⟨.vnum 1, 200, []⟩ ∧
    (executePooled emptyPool probeScript (.hostFn "req") []).1
        = .error "leakedflag is not defined" :=
  ⟨rfl, rfl, rfl⟩

/-- C6 as amended: a script evaluation failure on a scripted endpoint is
answered with HTTP 500 and the JSON body
`{"error": "Script execution failed", "details": <message>}` (the handler
is a total function of the request, so the failure never escapes the
request); however global bindings created by the failed script persist in
the pooled context and can affect future evaluations that reuse it. -/
theorem script_failure_response (eps : List Endpoint) (mtd : String)
    (ep : Endpoint) (msg : String)
    (hfind : findEndpoint eps mtd = some ep) (hscripted : ¬ ep.script = "") :
    handleRequest eps mtd (.error msg) =
      ⟨500, .json (.vobj [("error", .vstr "Script execution failed"),
                          ("details", .vstr msg)])⟩ := by
  simp [handleRequest, hfind, hscripted]

/-- Witness for C6 as amended: a concrete failing evaluation is answered
with the 500 error body carrying the failure message. -/
theorem script_failure_response_witness :
    handleRequest [scriptedEp] "GET" (.error "boom") =
      ⟨500, .json (.vobj [("error", .vstr "Script execution failed"),
                          ("details", .vstr "boom")])⟩ :=
  script_failure_response [scriptedEp] "GET" scriptedEp "boom" rfl (by decide)

/-- The leaking script of the C2 evaluation: create a global binding. -/
def leakScript : List JSStmt := [.assign "leaked" (.vnum 42)]

/-- A later script that reads the leaked global. -/
def leakProbe : List JSStmt := [.readVar "leaked"]

/-- C2 evaluated at the failing input: the release path clears only the
interrupt flag, so a global created by the first evaluation persists in the
pooled context; the second evaluation, reusing that context, evaluates to
the leaked value 42, while the identical script on a fresh context raises a
ReferenceError — the second evaluation's result depends on the first's
global bindings, so per-request bindings are not reset. -/
theorem pooled_context_leak :
    (executePooled emptyPool leakScript (.hostFn "req") []).1
        = .ok ⟨.vnum 42, 200, []⟩ ∧
    (executePooled (executePooled emptyPool leakScript (.hostFn "req") []).2
        leakProbe (.hostFn "req") []).1 = .ok ⟨.vnum 42, 200, []⟩ ∧
    (executePooled emptyPool leakProbe (.hostFn "req") []).1
        = .error "leaked is not defined" ∧
    ((executePooled emptyPool leakScript (.hostFn "req") []).2).freeList.all
        (fun vm => !vm.interrupted) = true :=
  ⟨rfl, rfl, rfl, rfl⟩

/-- Counterexample for C4 as stated: against template `/api/users/{id}` and
path `/foo/bar/42` the literal segments differ (`api` vs `foo`), so per the
claim the match fails and the binding map is empty; `extractPathValues`
never compares literal segments and returns the non-empty binding
`{"id": "42"}`.  The spec-following matcher `specPathMatch` rejects the
pair. -/
theorem path_matcher_literal_counterexample :
    specPathMatch "/api/users/{id}" "/foo/bar/42" = none ∧
    extractPathValues "/api/users/{id}" "/foo/bar/42" = [("id", "42")] :=
  ⟨rfl, rfl⟩

/-- C4 as amended: `extractPathValues` checks only that the `/`-delimited
segment counts are equal — a differing count yields the empty binding map;
with equal counts it binds every `{name}` template segment to the concrete
segment in the same position and ignores literal segments entirely,
performing no comparison on them (exact-path dispatch happens in the HTTP
router before this function runs).  The spec's example template yields
exactly `{"id": "42", "postId": "7"}`. -/
theorem path_matcher_amended (pattern path : String)
    (hlen : (goStringSplit pattern '/').length ≠ (goStringSplit path '/').length) :
    extractPathValues pattern path = [] ∧
    extractPathValues "/api/users/{id}/posts/{postId}" "/api/users/42/posts/7"
      = [("id", "42"), ("postId", "7")] ∧
    extractPathValues "/a/{x}" "/b/7" = [("x", "7")] := by
  refine ⟨?_, rfl, rfl⟩
  simp [extractPathValues, hlen]

/-- Witness for C4 as amended: a template/path pair with differing segment
counts yields the empty binding map. -/
theorem path_matcher_amended_witness :
    extractPathValues "/a" "/a/b" = [] :=
  (path_matcher_amended "/a" "/a/b" (by decide)).1

/-- Helper: `hexChar` always produces a lowercase hex digit (it indexes the
sixteen-character constant with the low nibble). -/
theorem hexChar_mem (b : Nat) : hexChar b ∈ hexDigitChars := by
  have h : ∀ m < 16, hexDigitChars.getD m '0' ∈ hexDigitChars := by decide
  exact h (b % 16) (Nat.mod_lt _ (by norm_num))

/-- Helper: every character of a hex-rendered byte slice is a lowercase hex
digit. -/
theorem hexBytes_subset (bs : List Nat) : ∀ c ∈ hexBytes bs, c ∈ hexDigitChars := by
  induction bs with
  | nil => simp [hexBytes]
  | cons b rest ih =>
    intro c hc
    simp only [hexBytes, hexByteChars, List.cons_append, List.nil_append,
      List.mem_cons] at hc
    rcases hc with rfl | rfl | hc
    · exact hexChar_mem _
    · exact hexChar_mem _
    · exact ih c hc

/-- C9: for every sequence of clock readings, `generateUUID` produces a
36-character string of five hyphen-separated lowercase-hex groups of
lengths 8-4-4-4-12, whose version nibble (first digit of the third group)
is 4 and whose variant nibble (first digit of the fourth group) is one of
8, 9, a, b. -/
theorem uuid_shape (nanos : Fin 16 → Nat) :
    ∃ g1 g2 g3 g4 g5 : List Char,
      (generateUUID nanos).data
          = g1 ++ '-' :: (g2 ++ '-' :: (g3 ++ '-' :: (g4 ++ '-' :: g5))) ∧
      g1.length = 8 ∧ g2.length = 4 ∧ g3.length = 4 ∧ g4.length = 4 ∧
      g5.length = 12 ∧
      (∀ c, c ∈ g1 ++ (g2 ++ (g3 ++ (g4 ++ g5))) → c ∈ hexDigitChars) ∧
      g3.head? = some '4' ∧
      (g4.head? = some '8' ∨ g4.head? = some '9' ∨ g4.head? = some 'a' ∨
        g4.head? = some 'b') ∧
      (generateUUID nanos).length = 36 := by
  refine ⟨hexBytes [uuidBytes nanos 0, uuidBytes nanos 1, uuidBytes nanos 2,
      uuidBytes nanos 3],
    hexBytes [uuidBytes nanos 4, uuidBytes nanos 5],
    hexBytes [uuidBytes nanos 6, uuidBytes nanos 7],
    hexBytes [uuidBytes nanos 8, uuidBytes nanos 9],
    hexBytes [uuidBytes nanos 10, uuidBytes nanos 11, uuidBytes nanos 12,
      uuidBytes nanos 13, uuidBytes nanos 14, uuidBytes nanos 15],
    rfl, rfl, rfl, rfl, rfl, rfl, ?_, ?_, ?_, rfl⟩
  · intro c hc
    rcases List.mem_append.mp hc with h | hc
    · exact hexBytes_subset _ c h
    rcases List.mem_append.mp hc with h | hc
    · exact hexBytes_subset _ c h
    rcases List.mem_append.mp hc with h | hc
    · exact hexBytes_subset _ c h
    rcases List.mem_append.mp hc with h | h
    · exact hexBytes_subset _ c h
    · exact hexBytes_subset _ c h
  · have h6 : uuidBytes nanos 6 = (nanos 6 >>> 48) % 256 % 16 + 64 := rfl
    have hlt : (nanos 6 >>> 48) % 256 % 16 < 16 := Nat.mod_lt _ (by norm_num)
    have hdiv : ((nanos 6 >>> 48) % 256 % 16 + 64) / 16 = 4 := by omega
    simp only [hexBytes, hexByteChars, List.cons_append, List.nil_append,
      List.head?_cons]
    rw [h6, hdiv]
    rfl
  · have h8 : uuidBytes nanos 8 = (nanos 8 >>> 64) % 256 % 64 + 128 := rfl
    have hlt : (nanos 8 >>> 64) % 256 % 64 < 64 := Nat.mod_lt _ (by norm_num)
    have hdiv : ((nanos 8 >>> 64) % 256 % 64 + 128) / 16 = 8 ∨
        ((nanos 8 >>> 64) % 256 % 64 + 128) / 16 = 9 ∨
        ((nanos 8 >>> 64) % 256 % 64 + 128) / 16 = 10 ∨
        ((nanos 8 >>> 64) % 256 % 64 + 128) / 16 = 11 := by omega
    simp only [hexBytes, hexByteChars, List.cons_append, List.nil_append,
      List.head?_cons]
    rw [h8]
    rcases hdiv with h | h | h | h
    · left; rw [h]; rfl
    · right; left; rw [h]; rfl
    · right; right; left; rw [h]; rfl
    · right; right; right; rw [h]; rfl

/-- Witness for C9: the shape theorem applied at the all-zero clock yields
the 36-character length. -/
theorem uuid_shape_witness : (generateUUID (fun _ => 0)).length = 36 := by
  obtain ⟨g1, g2, g3, g4, g5, h⟩ := uuid_shape (fun _ => 0)
  exact h.2.2.2.2.2.2.2.2.2
